import Mathlib

/-!
Verification of the Event-Checker RSVP service (`src/api/server.js`).

The source file concatenates two variants of the same Express app
(lines 1-297, called V1 below, and lines 299-515, called V2).  Pure
helpers (`normalizeName`, `onlyDigits`, `toISOWithTZ`, `isoFromDate`)
are embedded directly; the route handlers `POST /api/events`,
`POST /api/rsvp/:event_id` and `GET /api/events/:id/summary` are
embedded as pure functions over an explicit database state; the
PostgreSQL statements they issue are embedded by their semantics on a
list of rows (including `SUM` over an empty set yielding SQL NULL,
modelled as `none`).  JavaScript `Date` (ECMAScript proleptic-Gregorian
datetime) is modelled at one-second granularity for the ISO-8601 forms
the program produces and consumes; strings no ECMAScript engine parses
are modelled as invalid dates.  The deployment assumption stated by the
spec (fixed -03:00 offset, server local time = America/Sao_Paulo) is
adopted wherever the code depends on the server's local clock zone.
-/

/-! ## JavaScript string primitives -/

/-- Code points of the JavaScript whitespace class (`\s` in regexes,
`String.prototype.trim`). -/
def SpaceCode (n : Nat) : Prop :=
  n = 0x20 ∨ n = 0x9 ∨ n = 0xA ∨ n = 0xB ∨ n = 0xC ∨ n = 0xD ∨
  n = 0xA0 ∨ n = 0x1680 ∨ (0x2000 ≤ n ∧ n ≤ 0x200A) ∨
  n = 0x2028 ∨ n = 0x2029 ∨ n = 0x202F ∨ n = 0x205F ∨ n = 0x3000 ∨ n = 0xFEFF

instance (n : Nat) : Decidable (SpaceCode n) := by
  unfold SpaceCode
  infer_instance

/-- Whitespace class of JavaScript (`\s` in regexes, `String.prototype.trim`). -/
def isSpaceJS (c : Char) : Bool :=
  decide (SpaceCode c.toNat)

/-- Canonical decomposition (`String.prototype.normalize('NFD')`), restricted to
the Latin-1 letter repertoire (the repertoire exercised by the program's
Portuguese-language inputs); characters outside the table are decomposition-free. -/
def nfdDecomp (c : Char) : List Char :=
  match c with
  | 'À' => ['A', '̀'] | 'Á' => ['A', '́'] | 'Â' => ['A', '̂']
  | 'Ã' => ['A', '̃'] | 'Ä' => ['A', '̈'] | 'Å' => ['A', '̊']
  | 'Ç' => ['C', '̧']
  | 'È' => ['E', '̀'] | 'É' => ['E', '́'] | 'Ê' => ['E', '̂']
  | 'Ë' => ['E', '̈']
  | 'Ì' => ['I', '̀'] | 'Í' => ['I', '́'] | 'Î' => ['I', '̂']
  | 'Ï' => ['I', '̈']
  | 'Ñ' => ['N', '̃']
  | 'Ò' => ['O', '̀'] | 'Ó' => ['O', '́'] | 'Ô' => ['O', '̂']
  | 'Õ' => ['O', '̃'] | 'Ö' => ['O', '̈']
  | 'Ù' => ['U', '̀'] | 'Ú' => ['U', '́'] | 'Û' => ['U', '̂']
  | 'Ü' => ['U', '̈']
  | 'Ý' => ['Y', '́']
  | 'à' => ['a', '̀'] | 'á' => ['a', '́'] | 'â' => ['a', '̂']
  | 'ã' => ['a', '̃'] | 'ä' => ['a', '̈'] | 'å' => ['a', '̊']
  | 'ç' => ['c', '̧']
  | 'è' => ['e', '̀'] | 'é' => ['e', '́'] | 'ê' => ['e', '̂']
  | 'ë' => ['e', '̈']
  | 'ì' => ['i', '̀'] | 'í' => ['i', '́'] | 'î' => ['i', '̂']
  | 'ï' => ['i', '̈']
  | 'ñ' => ['n', '̃']
  | 'ò' => ['o', '̀'] | 'ó' => ['o', '́'] | 'ô' => ['o', '̂']
  | 'õ' => ['o', '̃'] | 'ö' => ['o', '̈']
  | 'ù' => ['u', '̀'] | 'ú' => ['u', '́'] | 'û' => ['u', '̂']
  | 'ü' => ['u', '̈']
  | 'ý' => ['y', '́'] | 'ÿ' => ['y', '̈']
  | _ => [c]

/-- The combining-mark block `[̀-ͯ]` removed by `normalizeName`. -/
def isCombiningMark (c : Char) : Bool :=
  0x300 ≤ c.toNat && c.toNat ≤ 0x36F

/-- `String.prototype.toLowerCase` on the Basic Latin and Latin-1 repertoire
(the repertoire left after `nfdDecomp` and mark stripping). -/
def lowerJS (c : Char) : Char :=
  let n := c.toNat
  if (65 ≤ n && n ≤ 90) || (192 ≤ n && n ≤ 222 && n != 215) then Char.ofNat (n + 32) else c

/-- `String.prototype.trim` on a character list. -/
def trimChars (l : List Char) : List Char :=
  ((l.dropWhile isSpaceJS).reverse.dropWhile isSpaceJS).reverse

/-- `String.prototype.trim`. -/
def jsTrim (s : String) : String :=
  String.mk (trimChars s.data)

/-- Helper for `collapseWs`: the flag records whether the previous character was
whitespace (so the current run's single `' '` has already been emitted). -/
def collapseWsAux : Bool → List Char → List Char
  | _, [] => []
  | inWs, c :: rest =>
    if isSpaceJS c then
      if inWs then collapseWsAux true rest else ' ' :: collapseWsAux true rest
    else c :: collapseWsAux false rest

/-- `.replace(/\s+/g, ' ')`: every maximal whitespace run becomes one space. -/
def collapseWs (l : List Char) : List Char :=
  collapseWsAux false l

/-- `server.js` lines 20-24 / 315-319: NFD-decompose, drop combining marks,
trim, lowercase, collapse internal whitespace runs. -/
def normalizeName (name : String) : String :=
  String.mk
    (collapseWs
      ((trimChars ((name.data.flatMap nfdDecomp).filter (fun c => !isCombiningMark c))).map
        lowerJS))

/-- `server.js` lines 26-28 / 320-322: `.replace(/\D/g, '')`. -/
def onlyDigits (s : String) : String :=
  String.mk (s.data.filter Char.isDigit)

/-- The accent/case/whitespace-insensitive key induced by the spec's equivalence:
per-character base-letter and lowercase mapping first, then trim and collapse.
Two names "differing only in accents, case, or whitespace runs" are exactly two
names with the same `nameKey`. -/
def nameKey (s : String) : List Char :=
  collapseWs
    (trimChars (((s.data.flatMap nfdDecomp).filter (fun c => !isCombiningMark c)).map lowerJS))

theorem toNat_ofNat_valid (n : Nat) (h : n.isValidChar) : (Char.ofNat n).toNat = n := by
  rw [Char.ofNat, dif_pos h]
  rfl

theorem isSpaceJS_lowerJS (c : Char) : isSpaceJS (lowerJS c) = isSpaceJS c := by
  unfold lowerJS
  by_cases h : ((65 ≤ c.toNat && c.toNat ≤ 90) ||
      (192 ≤ c.toNat && c.toNat ≤ 222 && c.toNat != 215)) = true
  · rw [if_pos h]
    have hb : (65 ≤ c.toNat ∧ c.toNat ≤ 90) ∨ ((192 ≤ c.toNat ∧ c.toNat ≤ 222) ∧ c.toNat ≠ 215) := by
      simpa [Bool.or_eq_true, Bool.and_eq_true, decide_eq_true_eq, bne_iff_ne] using h
    have hval : (c.toNat + 32).isValidChar := Or.inl (by omega)
    have htn : (Char.ofNat (c.toNat + 32)).toNat = c.toNat + 32 := toNat_ofNat_valid _ hval
    unfold isSpaceJS
    rw [htn, decide_eq_decide]
    unfold SpaceCode
    omega
  · rw [if_neg h]

theorem trimChars_map_lowerJS (l : List Char) :
    trimChars (l.map lowerJS) = (trimChars l).map lowerJS := by
  have hp : (isSpaceJS ∘ lowerJS) = isSpaceJS := funext isSpaceJS_lowerJS
  unfold trimChars
  simp only [List.dropWhile_map, hp, ← List.map_reverse]

theorem normalizeName_eq_nameKey (s : String) : normalizeName s = String.mk (nameKey s) := by
  unfold normalizeName nameKey
  rw [trimChars_map_lowerJS]

example : normalizeName "  João   SILVA " = "joao silva" := by decide
example : onlyDigits "(11) 99999-0000" = "11999990000" := by decide

/-! ## JavaScript `Date` model

ECMAScript `Date` uses the proleptic Gregorian calendar.  Instants are
modelled in seconds since the Unix epoch (the program never produces or
consumes sub-second precision).  `civilFromDays`/`daysFromCivil` are the
standard epoch-day/civil-date conversions. -/

/-- Civil date to days since 1970-01-01 (proleptic Gregorian). -/
def daysFromCivil (y m d : Int) : Int :=
  let y' := if m ≤ 2 then y - 1 else y
  let era := y' / 400
  let yoe := y' - era * 400
  let mp := (m + 9) % 12
  let doy := (153 * mp + 2) / 5 + d - 1
  let doe := yoe * 365 + yoe / 4 - yoe / 100 + doy
  era * 146097 + doe - 719468

/-- Days since 1970-01-01 to civil date `(year, month, day)`. -/
def civilFromDays (z0 : Int) : Int × Int × Int :=
  let z := z0 + 719468
  let era := z / 146097
  let doe := z - era * 146097
  let cc := min (doe / 36524) 3
  let n1 := doe - cc * 36524
  let qc := n1 / 1461
  let n2 := n1 - qc * 1461
  let yq := min (n2 / 365) 3
  let doy := n2 - yq * 365
  let yoe := cc * 100 + qc * 4 + yq
  let y := yoe + era * 400
  let mp := (5 * doy + 2) / 153
  let d := doy - (153 * mp + 2) / 5 + 1
  let m := if mp < 10 then mp + 3 else mp - 9
  (if m ≤ 2 then y + 1 else y, m, d)

example : civilFromDays 0 = (1970, 1, 1) := by decide
example : civilFromDays 20000 = (2024, 10, 4) := by decide
example : daysFromCivil 2024 10 4 = 20000 := by decide
example : daysFromCivil 2000 2 29 = 11016 := by decide
example : civilFromDays 11016 = (2000, 2, 29) := by decide
example : civilFromDays 11017 = (2000, 3, 1) := by decide
example : civilFromDays (-25509) = (1900, 2, 28) := by decide
example : civilFromDays (-25508) = (1900, 3, 1) := by decide
example : civilFromDays (-135140) = (1600, 1, 1) := by decide
example : civilFromDays 157419 = (2400, 12, 31) := by decide

theorem yoeDivArith (cc qc yq : Int) (h1 : 0 ≤ cc) (h2 : cc ≤ 3) (h3 : 0 ≤ qc) (h4 : qc ≤ 24)
    (h5 : 0 ≤ yq) (h6 : yq ≤ 3) :
    (100 * cc + 4 * qc + yq) / 4 = 25 * cc + qc ∧
    (100 * cc + 4 * qc + yq) / 100 = cc := by
  interval_cases cc <;> interval_cases yq <;> omega

theorem mpDivArith (doy : Int) (h1 : 0 ≤ doy) (h2 : doy ≤ 365) :
    0 ≤ (5 * doy + 2) / 153 ∧ (5 * doy + 2) / 153 ≤ 11 ∧
    (153 * ((5 * doy + 2) / 153) + 2) / 5 ≤ doy ∧
    doy - (153 * ((5 * doy + 2) / 153) + 2) / 5 ≤ 30 := by
  have hmp : 0 ≤ (5 * doy + 2) / 153 ∧ (5 * doy + 2) / 153 ≤ 11 := by omega
  set mp := (5 * doy + 2) / 153 with hmpdef
  clear_value mp
  obtain ⟨hl, hr⟩ := hmp
  interval_cases mp <;> omega

theorem daysFromCivil_recompose (z n era doe cc n1 qc n2 yq doy yoe y mp d m : Int)
    (hn : n = z + 719468) (hera : era = n / 146097) (hdoe : doe = n - era * 146097)
    (hcc : cc = min (doe / 36524) 3) (hn1 : n1 = doe - cc * 36524)
    (hqc : qc = n1 / 1461) (hn2 : n2 = n1 - qc * 1461)
    (hyq : yq = min (n2 / 365) 3) (hdoy : doy = n2 - yq * 365)
    (hyoe : yoe = cc * 100 + qc * 4 + yq) (hy : y = yoe + era * 400)
    (hmp : mp = (5 * doy + 2) / 153) (hd : d = doy - (153 * mp + 2) / 5 + 1)
    (hm : m = if mp < 10 then mp + 3 else mp - 9) :
    daysFromCivil (if m ≤ 2 then y + 1 else y) m d = z := by
  have hdoeb : 0 ≤ doe ∧ doe < 146097 := by omega
  have hccb : 0 ≤ cc ∧ cc ≤ 3 := by omega
  have hn1b : 0 ≤ n1 ∧ n1 ≤ 36524 := by omega
  have hqcb : 0 ≤ qc ∧ qc ≤ 24 := by omega
  have hn2b : 0 ≤ n2 ∧ n2 ≤ 1460 := by omega
  have hyqb : 0 ≤ yq ∧ yq ≤ 3 := by omega
  have hdoyb : 0 ≤ doy ∧ doy ≤ 365 := by omega
  have hyoeA := yoeDivArith cc qc yq hccb.1 hccb.2 hqcb.1 hqcb.2 hyqb.1 hyqb.2
  have hmpA := mpDivArith doy hdoyb.1 hdoyb.2
  by_cases hlt : mp < 10
  · rw [if_pos hlt] at hm
    rw [if_neg (by omega : ¬ m ≤ 2)]
    simp only [daysFromCivil]
    rw [if_neg (by omega : ¬ m ≤ 2)]
    have hyd : y / 400 = era := by omega
    have hmod : (m + 9) % 12 = mp := by omega
    rw [hmod, hyd]
    have h4 : (y - era * 400) / 4 = 25 * cc + qc := by omega
    have h100 : (y - era * 400) / 100 = cc := by omega
    rw [h4, h100]
    omega
  · rw [if_neg hlt] at hm
    rw [if_pos (by omega : m ≤ 2)]
    simp only [daysFromCivil]
    rw [if_pos (by omega : m ≤ 2)]
    have hyd : (y + 1 - 1) / 400 = era := by omega
    have hmod : (m + 9) % 12 = mp := by omega
    rw [hmod, hyd]
    have h4 : (y + 1 - 1 - era * 400) / 4 = 25 * cc + qc := by omega
    have h100 : (y + 1 - 1 - era * 400) / 100 = cc := by omega
    rw [h4, h100]
    omega

/-- `daysFromCivil` is a left inverse of `civilFromDays`. -/
theorem daysFromCivil_civilFromDays (z : Int) :
    daysFromCivil (civilFromDays z).1 (civilFromDays z).2.1 (civilFromDays z).2.2 = z := by
  unfold civilFromDays
  exact daysFromCivil_recompose z _ _ _ _ _ _ _ _ _ _ _ _ _ _ rfl rfl rfl rfl rfl rfl rfl rfl
    rfl rfl rfl rfl rfl rfl

/-- Gregorian leap year. -/
def isLeapB (y : Int) : Bool :=
  y % 4 == 0 && (y % 100 != 0 || y % 400 == 0)

/-- Length of a month (callers separately require `1 ≤ m ∧ m ≤ 12`). -/
def daysInMonth (y m : Int) : Int :=
  if m = 2 then (if isLeapB y then 29 else 28)
  else if m = 4 ∨ m = 6 ∨ m = 9 ∨ m = 11 then 30
  else 31

/-- The decimal digit character for `n % 10`. -/
def dChar (n : Int) : Char :=
  Char.ofNat (48 + (n % 10).toNat)

/-- Numeric value of a (digit) character. -/
def dVal (c : Char) : Int :=
  (c.toNat : Int) - 48

/-- `String(n).padStart(2, '0')` for `0 ≤ n ≤ 99`. -/
def pad2Chars (n : Int) : List Char :=
  [dChar (n / 10), dChar n]

/-- `String(y)` for a year: exactly four digits for 1000-9999.  Outside that
range the JavaScript output has a different digit count and is unparseable by
the ISO grammar; it is modelled by the equally unparseable "NaN". -/
def yearChars (y : Int) : List Char :=
  if 1000 ≤ y ∧ y ≤ 9999 then [dChar (y / 1000), dChar (y / 100), dChar (y / 10), dChar y]
  else ['N', 'a', 'N']

/-- `isoFromDate` (`server.js` lines 47-55): formats the Date's local
wall-clock fields as `yyyy-mm-ddThh:mi:00-03:00` (seconds dropped).  Local
time is the fixed -03:00 server offset per the spec's deployment assumption. -/
def isoFromDate (t : Int) : String :=
  let lt := t - 10800
  let days := lt / 86400
  let sod := lt % 86400
  let c := civilFromDays days
  String.mk (yearChars c.1 ++ '-' :: pad2Chars c.2.1 ++ '-' :: pad2Chars c.2.2 ++
    'T' :: pad2Chars (sod / 3600) ++ ':' :: pad2Chars (sod % 3600 / 60) ++
    [':', '0', '0', '-', '0', '3', ':', '0', '0'])

/-- The ISO string `isoFromDate` produces for an invalid (NaN) Date:
`String(NaN)` is "NaN" and `pad(NaN)` is "NaN". -/
def nanIsoString : String :=
  "NaN-NaN-NaNTNaN:NaN:00-03:00"

/-- The regex `/^\d{4}-\d{2}-\d{2}$/` of `toISOWithTZ`. -/
def dateFmtOk (s : String) : Bool :=
  match s.data with
  | [a, b, c, d, s1, e, f, s2, g, h] =>
    a.isDigit && b.isDigit && c.isDigit && d.isDigit && s1 == '-' &&
    e.isDigit && f.isDigit && s2 == '-' && g.isDigit && h.isDigit
  | _ => false

/-- The regex `/^\d{2}:\d{2}$/` of `toISOWithTZ`. -/
def timeFmtOk (s : String) : Bool :=
  match s.data with
  | [a, b, s1, c, d] => a.isDigit && b.isDigit && s1 == ':' && c.isDigit && d.isDigit
  | _ => false

/-- `toISOWithTZ` (`server.js` lines 40-45): `null` on missing (falsy) or
regex-malformed inputs, else `"${date}T${time}:00-03:00"` (default offset
argument; no caller passes another one).  The regexes check digit shape only,
not component ranges. -/
def toISOWithTZ (dateStr timeStr : String) : Option String :=
  if dateStr = "" ∨ timeStr = "" then none
  else if dateFmtOk dateStr && timeFmtOk timeStr then
    some (dateStr ++ "T" ++ timeStr ++ ":00-03:00")
  else none

/-- Timezone designator of an ECMAScript date-time string: absent (local time,
modelled as the fixed -03:00 server offset), `Z`, or `±hh:mm`.  Returns the
offset in minutes. -/
def parseOffsetJS : List Char → Option Int
  | [] => some (-180)
  | ['Z'] => some 0
  | [sg, h1, h2, cl, m1, m2] =>
    if (sg = '+' ∨ sg = '-') ∧ cl = ':' ∧
        h1.isDigit ∧ h2.isDigit ∧ m1.isDigit ∧ m2.isDigit then
      let hh := 10 * dVal h1 + dVal h2
      let mm := 10 * dVal m1 + dVal m2
      if hh ≤ 23 ∧ mm ≤ 59 then some (if sg = '+' then hh * 60 + mm else -(hh * 60 + mm))
      else none
    else none
  | _ => none

/-- Builds the instant for parsed date-time components, validating ranges the
way ECMAScript does (including the `24:00` special case); `none` is an
invalid Date. -/
def mkCivil (y m d hh mi ss off : Int) : Option Int :=
  if 1 ≤ m ∧ m ≤ 12 ∧ 1 ≤ d ∧ d ≤ daysInMonth y m ∧ mi ≤ 59 ∧ ss ≤ 59 ∧
      (hh ≤ 23 ∨ (hh = 24 ∧ mi = 0 ∧ ss = 0)) then
    some (daysFromCivil y m d * 86400 + hh * 3600 + mi * 60 + ss - off * 60)
  else none

/-- `new Date(string)`: the ECMAScript date-time string grammar
`YYYY-MM-DD[THH:mm[:ss][Z|±hh:mm]]`, at one-second granularity (fractional
seconds unused by this program are not modelled); any other string is an
invalid Date (`none`).  A date-only form is UTC, a date-time form without
designator is local time (fixed -03:00 here). -/
def parseIso (s : String) : Option Int :=
  match s.data with
  | [y1, y2, y3, y4, s1, a1, a2, s2, b1, b2] =>
    if y1.isDigit ∧ y2.isDigit ∧ y3.isDigit ∧ y4.isDigit ∧ s1 = '-' ∧
        a1.isDigit ∧ a2.isDigit ∧ s2 = '-' ∧ b1.isDigit ∧ b2.isDigit then
      mkCivil (1000 * dVal y1 + 100 * dVal y2 + 10 * dVal y3 + dVal y4)
        (10 * dVal a1 + dVal a2) (10 * dVal b1 + dVal b2) 0 0 0 0
    else none
  | y1 :: y2 :: y3 :: y4 :: s1 :: a1 :: a2 :: s2 :: b1 :: b2 :: tc :: h1 :: h2 :: c1 :: m1 :: m2 :: rest =>
    if y1.isDigit ∧ y2.isDigit ∧ y3.isDigit ∧ y4.isDigit ∧ s1 = '-' ∧
        a1.isDigit ∧ a2.isDigit ∧ s2 = '-' ∧ b1.isDigit ∧ b2.isDigit ∧
        tc = 'T' ∧ h1.isDigit ∧ h2.isDigit ∧ c1 = ':' ∧ m1.isDigit ∧ m2.isDigit then
      let y := 1000 * dVal y1 + 100 * dVal y2 + 10 * dVal y3 + dVal y4
      let mo := 10 * dVal a1 + dVal a2
      let dd := 10 * dVal b1 + dVal b2
      let hh := 10 * dVal h1 + dVal h2
      let mi := 10 * dVal m1 + dVal m2
      match rest with
      | cs :: sa :: sb :: rest2 =>
        if cs = ':' ∧ sa.isDigit ∧ sb.isDigit then
          match parseOffsetJS rest2 with
          | some off => mkCivil y mo dd hh mi (10 * dVal sa + dVal sb) off
          | none => none
        else
          match parseOffsetJS rest with
          | some off => mkCivil y mo dd hh mi 0 off
          | none => none
      | _ =>
        match parseOffsetJS rest with
        | some off => mkCivil y mo dd hh mi 0 off
        | none => none
    else none
  | _ => none

example : parseIso "2025-06-01T10:00:00-03:00" = some 1748782800 := by decide
example : parseIso "2025-06-01" = some 1748736000 := by decide
example : parseIso "2025-02-30T10:00:00-03:00" = none := by decide
example : parseIso "soon!" = none := by decide
example : parseIso "2024-02-29T23:59:59Z" = some 1709251199 := by decide
example : parseIso nanIsoString = none := by decide
example : parseIso "2025-06-01T10:00" = some 1748782800 := by decide
example : isoFromDate 1748782800 = "2025-06-01T10:00:00-03:00" := by decide
example : toISOWithTZ "2025-06-01" "10:00" = some "2025-06-01T10:00:00-03:00" := by decide
example : toISOWithTZ "2025-13-40" "99:99" = some "2025-13-40T99:99:00-03:00" := by decide
example : toISOWithTZ "2025-1-1" "10:00" = none := by decide

theorem char_le_iff_toNat (c d : Char) : c ≤ d ↔ c.toNat ≤ d.toNat := Iff.rfl

theorem isDigit_eq (c : Char) : c.isDigit = decide (48 ≤ c.toNat ∧ c.toNat ≤ 57) := by
  have h0 : ('0' ≤ c) = (48 ≤ c.toNat) := propext (char_le_iff_toNat '0' c)
  have h9 : (c ≤ '9') = (c.toNat ≤ 57) := propext (char_le_iff_toNat c '9')
  simp only [Char.isDigit, h0, h9]
  exact (Bool.decide_and _ _).symm

theorem dChar_isDigit (n : Int) : (dChar n).isDigit = true := by
  have hval : (48 + (n % 10).toNat).isValidChar := Or.inl (by omega)
  have h : (dChar n).toNat = 48 + (n % 10).toNat := toNat_ofNat_valid _ hval
  rw [isDigit_eq, h]
  simp only [decide_eq_true_eq]
  omega

theorem dVal_dChar (n : Int) : dVal (dChar n) = n % 10 := by
  have hval : (48 + (n % 10).toNat).isValidChar := Or.inl (by omega)
  have h : (dChar n).toNat = 48 + (n % 10).toNat := toNat_ofNat_valid _ hval
  unfold dVal
  rw [h]
  omega

theorem daysInMonth_le (y m : Int) : daysInMonth y m ≤ 31 ∧ 28 ≤ daysInMonth y m := by
  unfold daysInMonth
  split
  · split <;> omega
  · split <;> omega

theorem civilProps (z n era doe cc n1 qc n2 yq doy yoe y mp d m : Int)
    (hzlo : -354284 ≤ z) (hzhi : z ≤ 2932895)
    (hn : n = z + 719468) (hera : era = n / 146097) (hdoe : doe = n - era * 146097)
    (hcc : cc = min (doe / 36524) 3) (hn1 : n1 = doe - cc * 36524)
    (hqc : qc = n1 / 1461) (hn2 : n2 = n1 - qc * 1461)
    (hyq : yq = min (n2 / 365) 3) (hdoy : doy = n2 - yq * 365)
    (hyoe : yoe = cc * 100 + qc * 4 + yq) (hy : y = yoe + era * 400)
    (hmp : mp = (5 * doy + 2) / 153) (hd : d = doy - (153 * mp + 2) / 5 + 1)
    (hm : m = if mp < 10 then mp + 3 else mp - 9) :
    1 ≤ m ∧ m ≤ 12 ∧ 1 ≤ d ∧ d ≤ daysInMonth (if m ≤ 2 then y + 1 else y) m ∧
    1000 ≤ (if m ≤ 2 then y + 1 else y) ∧ (if m ≤ 2 then y + 1 else y) ≤ 9999 := by
  have hdoeb : 0 ≤ doe ∧ doe < 146097 := by omega
  have hccb : 0 ≤ cc ∧ cc ≤ 3 := by omega
  have hn1b : 0 ≤ n1 ∧ n1 ≤ 36524 := by omega
  have hqcb : 0 ≤ qc ∧ qc ≤ 24 := by omega
  have hn2b : 0 ≤ n2 ∧ n2 ≤ 1460 := by omega
  have hyqb : 0 ≤ yq ∧ yq ≤ 3 := by omega
  have hdoyb : 0 ≤ doy ∧ doy ≤ 365 := by omega
  have hmpb : 0 ≤ mp ∧ mp ≤ 11 := by omega
  have hLiff : isLeapB (y + 1) = true ↔
      ((y + 1) % 4 = 0 ∧ ((y + 1) % 100 ≠ 0 ∨ (y + 1) % 400 = 0)) := by
    simp [isLeapB, Bool.and_eq_true, beq_iff_eq, Bool.or_eq_true, bne_iff_ne]
  by_cases hFeb : mp = 11
  · subst hFeb
    norm_num at hm
    subst hm
    norm_num [daysInMonth]
    cases hbool : isLeapB (y + 1)
    · rw [hbool] at hLiff
      have hnl : ¬((y + 1) % 4 = 0 ∧ ((y + 1) % 100 ≠ 0 ∨ (y + 1) % 400 = 0)) := by
        intro hc
        exact absurd (hLiff.mpr hc) (by simp)
      norm_num
      omega
    · norm_num
      omega
  · obtain ⟨hmp0, hmp1⟩ := hmpb
    have hmp10 : mp ≤ 10 := by omega
    interval_cases mp <;> norm_num at hm <;> subst hm <;> norm_num [daysInMonth] <;> omega

theorem civilFromDays_props (z : Int) (hzlo : -354284 ≤ z) (hzhi : z ≤ 2932895) :
    1 ≤ (civilFromDays z).2.1 ∧ (civilFromDays z).2.1 ≤ 12 ∧ 1 ≤ (civilFromDays z).2.2 ∧
    (civilFromDays z).2.2 ≤ daysInMonth (civilFromDays z).1 (civilFromDays z).2.1 ∧
    1000 ≤ (civilFromDays z).1 ∧ (civilFromDays z).1 ≤ 9999 := by
  unfold civilFromDays
  exact civilProps z _ _ _ _ _ _ _ _ _ _ _ _ _ _ hzlo hzhi rfl rfl rfl rfl rfl rfl rfl rfl
    rfl rfl rfl rfl rfl rfl

/-- Round trip: parsing the formatter's output recovers the instant, for
whole-minute instants whose local civil year has four digits. -/
theorem parseIso_isoFromDate (t : Int) (h60 : t % 60 = 0)
    (hlo : -30610126800 ≤ t) (hhi : t ≤ 253402128000) :
    parseIso (isoFromDate t) = some t := by
  have hdaysb : -354284 ≤ (t - 10800) / 86400 ∧ (t - 10800) / 86400 ≤ 2932895 := by omega
  have hprops := civilFromDays_props _ hdaysb.1 hdaysb.2
  have hrt := daysFromCivil_civilFromDays ((t - 10800) / 86400)
  simp only [isoFromDate]
  set Y := (civilFromDays ((t - 10800) / 86400)).1 with hYdef
  set MO := (civilFromDays ((t - 10800) / 86400)).2.1 with hMOdef
  set DD := (civilFromDays ((t - 10800) / 86400)).2.2 with hDDdef
  obtain ⟨hm1, hm2, hd1, hd2, hy1, hy2⟩ := hprops
  have hdm := daysInMonth_le Y MO
  have hsodb : 0 ≤ (t - 10800) % 86400 ∧ (t - 10800) % 86400 < 86400 ∧
      (t - 10800) % 86400 % 60 = 0 := by omega
  rw [show yearChars Y = [dChar (Y / 1000), dChar (Y / 100), dChar (Y / 10), dChar Y] from by
    unfold yearChars; rw [if_pos ⟨hy1, hy2⟩]]
  simp only [pad2Chars, List.cons_append, List.nil_append]
  unfold parseIso
  simp only [dChar_isDigit, dVal_dChar]
  have hoff : parseOffsetJS ['-', '0', '3', ':', '0', '0'] = some (-180) := by decide
  norm_num [hoff, show ('0' : Char).isDigit = true from by decide,
    show dVal '0' = 0 from by decide]
  have hYrec : 1000 * (Y / 1000 % 10) + 100 * (Y / 100 % 10) + 10 * (Y / 10 % 10) + Y % 10
      = Y := by omega
  have hMOrec : 10 * (MO / 10 % 10) + MO % 10 = MO := by omega
  have hDDrec : 10 * (DD / 10 % 10) + DD % 10 = DD := by omega
  have hHHrec : 10 * ((t - 10800) % 86400 / 3600 / 10 % 10) + (t - 10800) % 86400 / 3600 % 10
      = (t - 10800) % 86400 / 3600 := by omega
  have hMIrec : 10 * ((t - 10800) % 3600 / 60 / 10 % 10) +
      (t - 10800) % 3600 / 60 % 10 = (t - 10800) % 3600 / 60 := by omega
  rw [hYrec, hMOrec, hDDrec, hHHrec, hMIrec]
  unfold mkCivil
  rw [if_pos ⟨hm1, hm2, hd1, hd2, by omega, by omega, Or.inl (by omega)⟩]
  rw [hrt]
  congr 1
  omega

/-! ## Data model and database state

Rows of the `events` and `rsvps` tables, restricted to the columns the
modelled routes read or write (display/theming columns, custom messages,
`user_agent` and `ip_hash` are written but never read back by any modelled
route and are omitted).  `DB.nextRsvpId` models the serial primary key. -/

structure Event where
  id : Nat
  host_hash : String
  date : String
  time : String
  tz : String
  rsvp_deadline : String
  include_maybe_in_counts : Bool
deriving Repr, DecidableEq

structure Rsvp where
  id : Nat
  event_id : Nat
  name_raw : String
  name_norm : String
  phone : String
  email : Option String
  status : String
  total_people : Int
  children : Int
deriving Repr, DecidableEq

structure DB where
  events : List Event
  rsvps : List Rsvp
  nextRsvpId : Nat
deriving Repr, DecidableEq

/-- `Modelled from the spec:` the `rsvps.adults` column read by the second
variant (`RETURNING id, adults` at line 438 and `SUM(adults)` at line 493) is
defined by the database schema in `db.js`/migrations, which are not under
`src/`; per the spec (§3: "adults = total_people − children (derived)", §9:
"keep adults/children as purely derived values") it is the derived value
`total_people − children`. -/
def adultsColumn (r : Rsvp) : Int :=
  r.total_people - r.children

/-- JavaScript falsiness of an optional string field (absent / `null` / ""). -/
def strFalsy : Option String → Bool
  | none => true
  | some s => s == ""

/-- `SELECT ... FROM events WHERE id = $1`. -/
def findEvent (db : DB) (id : Nat) : Option Event :=
  db.events.find? (fun e => e.id == id)

/-- The `WHERE event_id = $1 AND name_norm = $2 AND phone = $3` predicate of
the deduplicating DELETE. -/
def keyMatches (eid : Nat) (nn pd : String) (r : Rsvp) : Bool :=
  r.event_id == eid && r.name_norm == nn && r.phone == pd

/-- §4.2 Deadline Gate: the code accepts unless `now > deadline`
(`server.js` line 201 / 424). -/
def isAcceptingResponses (now deadline : Int) : Bool :=
  !decide (deadline < now)

/-- The deadline comparison as executed: `new Date(ev.rsvp_deadline)` may be
an Invalid Date (`none`), and `now > NaN` is false, so an unparseable
deadline never closes. -/
def rsvpClosed (now : Int) (deadline : Option Int) : Bool :=
  match deadline with
  | some d => !isAcceptingResponses now d
  | none => false

/-- Request body of `POST /api/rsvp/:event_id`.  `none` models an absent or
non-string / non-number field (`typeof` checks); `honeypot` defaults to `''`. -/
structure RsvpBody where
  name : Option String
  phone : Option String
  email : Option String
  status : Option String
  total_people : Option Int
  children : Option Int
  honeypot : String
deriving Repr, DecidableEq

/-- Line 175 / 403: `!name || !phone || !status || typeof total_people !==
'number' || typeof children !== 'number'`. -/
def requiredMissing (b : RsvpBody) : Bool :=
  strFalsy b.name || strFalsy b.phone || strFalsy b.status ||
  b.total_people.isNone || b.children.isNone

/-- Line 178 / 406: `['going','maybe','not_going'].includes(status)`. -/
def statusValid (st : String) : Bool :=
  st == "going" || st == "maybe" || st == "not_going"

/-- Line 181 / 409: `total_people < 1 || children < 0 || children > total_people`. -/
def headcountsInvalid (tp ch : Int) : Bool :=
  tp < 1 || ch < 0 || ch > tp

/-- The JSON responses `POST /api/rsvp/:event_id` can produce. -/
inductive RsvpResp where
  | okTrue : RsvpResp
  | err : Nat → String → RsvpResp
  | success : Nat → String → Int → Int → RsvpResp
deriving Repr, DecidableEq

/-- HTTP status code of a response. -/
def RsvpResp.httpStatus : RsvpResp → Nat
  | .okTrue => 200
  | .err c _ => c
  | .success _ _ _ _ => 200

/-- `POST /api/rsvp/:event_id`, first variant (`server.js` lines 167-238). -/
def postRsvpV1 (db : DB) (event_id : Nat) (b : RsvpBody) (now : Int) : RsvpResp × DB :=
  if jsTrim b.honeypot ≠ "" then (.okTrue, db)
  else if requiredMissing b then
    (.err 400 "Campos obrigatórios: name, phone, status, total_people, children", db)
  else
    let name := b.name.getD ""
    let phone := b.phone.getD ""
    let status := b.status.getD ""
    let total_people := b.total_people.getD 0
    let children := b.children.getD 0
    if !statusValid status then
      (.err 400 "status inválido", db)
    else if headcountsInvalid total_people children then
      (.err 400 "Valores inválidos de pessoas/crianças", db)
    else
      let name_norm := normalizeName name
      let phone_digits := onlyDigits phone
      match findEvent db event_id with
      | none => (.err 404 "Evento não encontrado", db)
      | some ev =>
        if rsvpClosed now (parseIso ev.rsvp_deadline) then
          (.err 403 "RSVP encerrado para este evento", db)
        else
          let rid := db.nextRsvpId
          let newR : Rsvp :=
            { id := rid, event_id := event_id, name_raw := name, name_norm := name_norm,
              phone := phone_digits, email := b.email, status := status,
              total_people := total_people, children := children }
          let db' : DB :=
            { db with
              rsvps := db.rsvps.filter (fun r => !keyMatches event_id name_norm phone_digits r)
                ++ [newR],
              nextRsvpId := rid + 1 }
          let editUntil : Option Int :=
            match toISOWithTZ ev.date ev.time with
            | none => some (-86400)
            | some s => (parseIso s).map (fun n => n - 86400)
          match editUntil with
          | none => (.err 500 "Erro ao salvar RSVP", db')
          | some eu => (.success rid status (total_people - children) eu, db')

/-- `POST /api/rsvp/:event_id`, second variant (`server.js` lines 395-460).
Differs from the first in the returned `adults` (the stored column instead of
the SQL expression) and in the `edit_until` computation
(`new Date(`${date}T${time}`)`, a local-time form with no format check). -/
def postRsvpV2 (db : DB) (event_id : Nat) (b : RsvpBody) (now : Int) : RsvpResp × DB :=
  if jsTrim b.honeypot ≠ "" then (.okTrue, db)
  else if requiredMissing b then
    (.err 400 "Campos obrigatórios: name, phone, status, total_people, children", db)
  else
    let name := b.name.getD ""
    let phone := b.phone.getD ""
    let status := b.status.getD ""
    let total_people := b.total_people.getD 0
    let children := b.children.getD 0
    if !statusValid status then
      (.err 400 "status inválido", db)
    else if headcountsInvalid total_people children then
      (.err 400 "Valores inválidos de pessoas/crianças", db)
    else
      let name_norm := normalizeName name
      let phone_digits := onlyDigits phone
      match findEvent db event_id with
      | none => (.err 404 "Evento não encontrado", db)
      | some ev =>
        if rsvpClosed now (parseIso ev.rsvp_deadline) then
          (.err 403 "RSVP encerrado para este evento", db)
        else
          let rid := db.nextRsvpId
          let newR : Rsvp :=
            { id := rid, event_id := event_id, name_raw := name, name_norm := name_norm,
              phone := phone_digits, email := b.email, status := status,
              total_people := total_people, children := children }
          let db' : DB :=
            { db with
              rsvps := db.rsvps.filter (fun r => !keyMatches event_id name_norm phone_digits r)
                ++ [newR],
              nextRsvpId := rid + 1 }
          match (parseIso (ev.date ++ "T" ++ ev.time)).map (fun n => n - 86400) with
          | none => (.err 500 "Erro ao salvar RSVP", db')
          | some eu => (.success rid status (adultsColumn newR) eu, db')

/-- PostgreSQL `SUM` over a query result: NULL (`none`) when there are no
rows, else the sum. -/
def sqlSumInt (l : List Int) : Option Int :=
  if l.isEmpty then none else some l.sum

/-- The JSON responses `GET /api/events/:id/summary` can produce: not-found,
or the `totals` object `(all, going, maybe, not_going, adults, children,
include_maybe_in_counts)`.  `going`/`maybe`/`not_going` come from un-coalesced
`SUM`s and are therefore `Option Int` (SQL NULL when the event has no rows);
`adults`/`children` are `COALESCE`d. -/
inductive SummaryResp where
  | err : Nat → String → SummaryResp
  | totals : Int → Option Int → Option Int → Option Int → Int → Int → Bool → SummaryResp
deriving Repr, DecidableEq

def SummaryResp.adultsOf : SummaryResp → Option Int
  | .totals _ _ _ _ a _ _ => some a
  | _ => none

def SummaryResp.childrenOf : SummaryResp → Option Int
  | .totals _ _ _ _ _ c _ => some c
  | _ => none

def SummaryResp.goingOf : SummaryResp → Option (Option Int)
  | .totals _ g _ _ _ _ _ => some g
  | _ => none

/-- The two `baseStatuses` lists (`server.js` line 272 / 490). -/
def countedStatuses (includeMaybe : Bool) : List String :=
  if includeMaybe then ["going", "maybe"] else ["going"]

/-- `GET /api/events/:id/summary`, first variant (`server.js` lines 241-293).
The access key from the query string is read but never used (the `host_hash`
check is commented out). -/
def getSummaryV1 (db : DB) (id : Nat) (key : Option String) : SummaryResp :=
  match findEvent db id with
  | none => .err 404 "Evento não encontrado"
  | some ev =>
    let includeMaybe := ev.include_maybe_in_counts
    let rs := db.rsvps.filter (fun r => r.event_id == id)
    let going := sqlSumInt (rs.map (fun r => if r.status == "going" then (1 : Int) else 0))
    let maybe := sqlSumInt (rs.map (fun r => if r.status == "maybe" then (1 : Int) else 0))
    let notGoing :=
      sqlSumInt (rs.map (fun r => if r.status == "not_going" then (1 : Int) else 0))
    let counted := rs.filter (fun r => (countedStatuses includeMaybe).contains r.status)
    let adults := (sqlSumInt (counted.map (fun r => r.total_people - r.children))).getD 0
    let childrenSum := (sqlSumInt (counted.map (fun r => r.children))).getD 0
    .totals (rs.length : Int) going maybe notGoing adults childrenSum includeMaybe

/-- `GET /api/events/:id/summary`, second variant (`server.js` lines 463-511).
Identical except that `adults` sums the stored `adults` column
(see `adultsColumn`) instead of the expression `total_people - children`. -/
def getSummaryV2 (db : DB) (id : Nat) (key : Option String) : SummaryResp :=
  match findEvent db id with
  | none => .err 404 "Evento não encontrado"
  | some ev =>
    let includeMaybe := ev.include_maybe_in_counts
    let rs := db.rsvps.filter (fun r => r.event_id == id)
    let going := sqlSumInt (rs.map (fun r => if r.status == "going" then (1 : Int) else 0))
    let maybe := sqlSumInt (rs.map (fun r => if r.status == "maybe" then (1 : Int) else 0))
    let notGoing :=
      sqlSumInt (rs.map (fun r => if r.status == "not_going" then (1 : Int) else 0))
    let counted := rs.filter (fun r => (countedStatuses includeMaybe).contains r.status)
    let adults := (sqlSumInt (counted.map (fun r => adultsColumn r))).getD 0
    let childrenSum := (sqlSumInt (counted.map (fun r => r.children))).getD 0
    .totals (rs.length : Int) going maybe notGoing adults childrenSum includeMaybe

/-- Request body of `POST /api/events` (deadline-relevant fields). -/
structure EventBody where
  title : Option String
  host_name : Option String
  date : Option String
  time : Option String
  location : Option String
  rsvp_deadline_date : Option String
  rsvp_deadline_time : Option String
  rsvp_deadline : Option String
deriving Repr, DecidableEq

/-- Outcome of `POST /api/events`: an error, or creation with the resolved
`rsvp_deadline` string as stored on the event row. -/
inductive CreateResp where
  | err : Nat → String → CreateResp
  | created : String → CreateResp
deriving Repr, DecidableEq

/-- The fallback deadline string: `isoFromDate(new Date(event - 24h))`
(`server.js` lines 124-125).  When the event's own ISO string has
out-of-range components, `new Date` is invalid, `getTime()` is NaN, and
`isoFromDate` formats the NaN fields. -/
def fallbackDeadline (eventISO : String) : String :=
  match parseIso eventISO with
  | some start => isoFromDate (start - 86400)
  | none => nanIsoString

/-- Line 96: `!title || !host_name || !date || !time || !location`. -/
def eventRequiredMissingV1 (b : EventBody) : Bool :=
  strFalsy b.title || strFalsy b.host_name || strFalsy b.date || strFalsy b.time ||
  strFalsy b.location

/-- Line 357: the second variant additionally requires `rsvp_deadline`. -/
def eventRequiredMissingV2 (b : EventBody) : Bool :=
  strFalsy b.title || strFalsy b.host_name || strFalsy b.date || strFalsy b.time ||
  strFalsy b.location || strFalsy b.rsvp_deadline

/-- Line 117: `rsvp_deadline_date && rsvp_deadline_time`. -/
def bothSplit (b : EventBody) : Bool :=
  !strFalsy b.rsvp_deadline_date && !strFalsy b.rsvp_deadline_time

/-- `POST /api/events`, first variant (`server.js` lines 71-164): deadline
resolution order is split fields (if both truthy), else the legacy
`rsvp_deadline` verbatim (if truthy), and if the result is still null
(including the case of malformed split fields) the 24-hours-before-event
fallback. -/
def postEventsV1 (b : EventBody) : CreateResp :=
  if eventRequiredMissingV1 b then
    .err 400 "Campos obrigatórios: title, host_name, date, time, location"
  else
    match toISOWithTZ (b.date.getD "") (b.time.getD "") with
    | none =>
      .err 400 "Formato inválido de data/horário do evento (use data \"YYYY-MM-DD\" e hora \"HH:mm\")"
    | some eventISO =>
      let fromSplit : Option String :=
        if bothSplit b then
          toISOWithTZ (b.rsvp_deadline_date.getD "") (b.rsvp_deadline_time.getD "")
        else if !strFalsy b.rsvp_deadline then b.rsvp_deadline
        else none
      match fromSplit with
      | some s => .created s
      | none => .created (fallbackDeadline eventISO)

/-- `POST /api/events`, second variant (`server.js` lines 345-392): no split
fields and no fallback; `rsvp_deadline` is required and stored verbatim. -/
def postEventsV2 (b : EventBody) : CreateResp :=
  if eventRequiredMissingV2 b then
    .err 400 "Campos obrigatórios: title, host_name, date, time, location, rsvp_deadline"
  else
    .created (b.rsvp_deadline.getD "")

/-! ## Test fixtures -/

/-- Fixture: an event whose deadline parses and whose date/time are well-formed. -/
def evW : Event :=
  { id := 1, host_hash := "h", date := "2025-05-10", time := "18:00",
    tz := "America/Sao_Paulo", rsvp_deadline := "2025-06-01T10:00:00-03:00",
    include_maybe_in_counts := false }

/-- Fixture: an event whose stored date is regex-valid but not a real
calendar date, so `new Date` on it is invalid. -/
def evFeb30 : Event :=
  { id := 2, host_hash := "h", date := "2025-02-30", time := "10:00",
    tz := "America/Sao_Paulo", rsvp_deadline := "2025-06-01T10:00:00-03:00",
    include_maybe_in_counts := false }

def dbW : DB := { events := [evW], rsvps := [], nextRsvpId := 1 }

def dbFeb30 : DB := { events := [evFeb30], rsvps := [], nextRsvpId := 1 }

def goodBody : RsvpBody :=
  { name := some "Ana", phone := some "(11) 99999-0000", email := none,
    status := some "going", total_people := some 2, children := some 1, honeypot := "" }

def spamBody : RsvpBody := { goodBody with honeypot := "bot" }

/-- An instant before `evW`'s deadline. -/
def nowOpen : Int := 1748781800

/-- The row `postRsvpV1 dbW 1 goodBody nowOpen` inserts. -/
def insertedW : Rsvp :=
  { id := 1, event_id := 1, name_raw := "Ana", name_norm := "ana",
    phone := "11999990000", email := none, status := "going",
    total_people := 2, children := 1 }

/-! ## Claim theorems -/

/-- C6: names that differ only in accents/diacritics, letter case,
leading/trailing whitespace or internal whitespace-run lengths (equivalently:
names with the same per-character base-letter/lowercase key) normalize
identically; phones that differ only in non-digit characters (equivalently:
with the same digit subsequence) normalize identically; both functions are
total and map empty input to the empty string. -/
theorem normalizer_equivalences :
    (∀ s t : String, nameKey s = nameKey t → normalizeName s = normalizeName t) ∧
    (∀ s t : String, s.data.filter Char.isDigit = t.data.filter Char.isDigit →
      onlyDigits s = onlyDigits t) ∧
    normalizeName "" = "" ∧ onlyDigits "" = "" := by
  refine ⟨?_, ?_, by decide, by decide⟩
  · intro s t h
    rw [normalizeName_eq_nameKey, normalizeName_eq_nameKey, h]
  · intro s t h
    unfold onlyDigits
    rw [h]

theorem normalizer_equivalences_witness :
    normalizeName "João  Silva" = normalizeName "joao silva" ∧
    onlyDigits "(11) 99999-0000" = onlyDigits "11999990000" :=
  ⟨normalizer_equivalences.1 _ _ (by decide), normalizer_equivalences.2.1 _ _ (by decide)⟩

/-- C10: the summary result for an existing event is independent of the
supplied access key (present or absent): both variants read `key` from the
query string but never compare it against the host secret. -/
theorem summary_key_ignored (db : DB) (id : Nat) (ev : Event) (k1 k2 : Option String)
    (h : findEvent db id = some ev) :
    getSummaryV1 db id k1 = getSummaryV1 db id k2 ∧
    getSummaryV2 db id k1 = getSummaryV2 db id k2 :=
  ⟨rfl, rfl⟩

theorem summary_key_ignored_witness :
    getSummaryV1 dbW 1 (some "wrong-key") = getSummaryV1 dbW 1 none ∧
    getSummaryV2 dbW 1 (some "wrong-key") = getSummaryV2 dbW 1 none :=
  summary_key_ignored dbW 1 evW (some "wrong-key") none (by decide)

/-- C4 counterexample: a honeypot submission is accepted with the body
`{ok:true}` and persists nothing, but that body differs from the body of a
real successful submission (`rsvp_id`/`status`/`adults`/`edit_until`), so the
two responses are distinguishable to the caller, contrary to the claim. -/
theorem honeypot_distinguishable_counterexample :
    postRsvpV1 dbW 1 spamBody nowOpen = (.okTrue, dbW) ∧
    postRsvpV1 dbW 1 goodBody nowOpen =
      (.success 1 "going" 1 1746824400,
        { events := [evW], rsvps := [insertedW], nextRsvpId := 2 }) ∧
    RsvpResp.okTrue ≠ .success 1 "going" 1 1746824400 := by
  refine ⟨by decide, by decide, by decide⟩

/-- C4 (amended): a submission whose honeypot is non-empty after trimming is
answered with HTTP 200 and body `{ok:true}` and persists nothing (ledger
unchanged, nothing deleted or inserted); the response shares the success
status code with a real success but its body is a different shape from every
real success body. -/
theorem honeypot_silent_noop (db : DB) (eid : Nat) (b : RsvpBody) (now : Int)
    (h : jsTrim b.honeypot ≠ "") :
    postRsvpV1 db eid b now = (.okTrue, db) ∧ postRsvpV2 db eid b now = (.okTrue, db) ∧
    RsvpResp.okTrue.httpStatus = 200 ∧
    ∀ rid st ad eu, RsvpResp.okTrue ≠ .success rid st ad eu := by
  refine ⟨?_, ?_, rfl, fun _ _ _ _ => by simp⟩
  · unfold postRsvpV1
    rw [if_pos h]
  · unfold postRsvpV2
    rw [if_pos h]

theorem honeypot_silent_noop_witness :
    postRsvpV1 dbW 1 spamBody nowOpen = (.okTrue, dbW) ∧
    postRsvpV2 dbW 1 spamBody nowOpen = (.okTrue, dbW) :=
  ⟨(honeypot_silent_noop dbW 1 spamBody nowOpen (by decide)).1,
   (honeypot_silent_noop dbW 1 spamBody nowOpen (by decide)).2.1⟩

/-- C3: the Deadline Gate accepts exactly while `now ≤ deadline` (equality
included) and rejects exactly when `now > deadline`; for an otherwise-valid
submission to an existing event whose stored deadline parses, both route
variants answer with the deadline-closed signal (403) precisely when
`now > deadline`. -/
theorem deadline_gate_boundary :
    (∀ now dl : Int, isAcceptingResponses now dl = true ↔ now ≤ dl) ∧
    (∀ dl : Int, isAcceptingResponses dl dl = true) ∧
    (∀ (db : DB) (eid : Nat) (b : RsvpBody) (now dl : Int) (ev : Event),
      findEvent db eid = some ev → parseIso ev.rsvp_deadline = some dl →
      jsTrim b.honeypot = "" → requiredMissing b = false →
      statusValid (b.status.getD "") = true →
      headcountsInvalid (b.total_people.getD 0) (b.children.getD 0) = false →
      (((postRsvpV1 db eid b now).1 = .err 403 "RSVP encerrado para este evento") ↔ dl < now) ∧
      (((postRsvpV2 db eid b now).1 = .err 403 "RSVP encerrado para este evento") ↔ dl < now)) := by
  refine ⟨?_, ?_, ?_⟩
  · intro now dl
    unfold isAcceptingResponses
    simp only [Bool.not_eq_true', decide_eq_false_iff_not]
    omega
  · intro dl
    unfold isAcceptingResponses
    simp only [Bool.not_eq_true', decide_eq_false_iff_not]
    omega
  · intro db eid b now dl ev hev hparse hhp hreq hst hvals
    constructor
    · simp only [postRsvpV1]
      rw [if_neg (by simp [hhp] : ¬ jsTrim b.honeypot ≠ "")]
      rw [if_neg (by simp [hreq])]
      rw [if_neg (by simp [hst])]
      rw [if_neg (by simp [hvals])]
      simp only [hev]
      rw [show rsvpClosed now (parseIso ev.rsvp_deadline) = decide (dl < now) from by
        rw [hparse]; simp [rsvpClosed, isAcceptingResponses]]
      by_cases hlt : dl < now
      · simp [hlt]
      · rw [if_neg (by simp [hlt])]
        simp only [hlt, iff_false]
        split <;> simp
    · simp only [postRsvpV2]
      rw [if_neg (by simp [hhp] : ¬ jsTrim b.honeypot ≠ "")]
      rw [if_neg (by simp [hreq])]
      rw [if_neg (by simp [hst])]
      rw [if_neg (by simp [hvals])]
      simp only [hev]
      rw [show rsvpClosed now (parseIso ev.rsvp_deadline) = decide (dl < now) from by
        rw [hparse]; simp [rsvpClosed, isAcceptingResponses]]
      by_cases hlt : dl < now
      · simp [hlt]
      · rw [if_neg (by simp [hlt])]
        simp only [hlt, iff_false]
        split <;> simp

theorem deadline_gate_boundary_witness :
    (isAcceptingResponses 1748782800 1748782800 = true) ∧
    (((postRsvpV1 dbW 1 goodBody 1748782801).1 =
        .err 403 "RSVP encerrado para este evento") ↔ (1748782800 : Int) < 1748782801) ∧
    (((postRsvpV1 dbW 1 goodBody 1748782800).1 =
        .err 403 "RSVP encerrado para este evento") ↔ (1748782800 : Int) < 1748782800) :=
  ⟨deadline_gate_boundary.2.1 1748782800,
   (deadline_gate_boundary.2.2 dbW 1 goodBody 1748782801 1748782800 evW (by decide) (by decide)
      (by decide) (by decide) (by decide) (by decide)).1,
   (deadline_gate_boundary.2.2 dbW 1 goodBody 1748782800 1748782800 evW (by decide) (by decide)
      (by decide) (by decide) (by decide) (by decide)).1⟩

/-- The row inserted by an accepted submission. -/
def insertedRow (db : DB) (eid : Nat) (b : RsvpBody) : Rsvp :=
  { id := db.nextRsvpId, event_id := eid, name_raw := b.name.getD "",
    name_norm := normalizeName (b.name.getD ""), phone := onlyDigits (b.phone.getD ""),
    email := b.email, status := b.status.getD "",
    total_people := b.total_people.getD 0, children := b.children.getD 0 }

/-- The database state after the delete-then-insert replacement. -/
def replacedDB (db : DB) (eid : Nat) (b : RsvpBody) : DB :=
  { db with
    rsvps := db.rsvps.filter (fun r => !keyMatches eid (normalizeName (b.name.getD ""))
        (onlyDigits (b.phone.getD "")) r) ++ [insertedRow db eid b],
    nextRsvpId := db.nextRsvpId + 1 }

theorem postRsvpV1_success_inv (db : DB) (eid : Nat) (b : RsvpBody) (now : Int)
    (rid : Nat) (st : String) (ad eu : Int) (db' : DB)
    (h : postRsvpV1 db eid b now = (.success rid st ad eu, db')) :
    requiredMissing b = false ∧ statusValid (b.status.getD "") = true ∧
    headcountsInvalid (b.total_people.getD 0) (b.children.getD 0) = false ∧
    rid = db.nextRsvpId ∧ st = b.status.getD "" ∧
    ad = b.total_people.getD 0 - b.children.getD 0 ∧
    db' = replacedDB db eid b := by
  by_cases h1 : jsTrim b.honeypot ≠ ""
  · simp only [postRsvpV1] at h
    rw [if_pos h1] at h
    simp at h
  · simp only [postRsvpV1] at h
    rw [if_neg h1] at h
    by_cases h2 : requiredMissing b = true
    · rw [if_pos h2] at h
      simp at h
    · rw [if_neg h2] at h
      by_cases h3 : (!statusValid (b.status.getD "")) = true
      · rw [if_pos h3] at h
        simp at h
      · rw [if_neg h3] at h
        by_cases h4 : headcountsInvalid (b.total_people.getD 0) (b.children.getD 0) = true
        · rw [if_pos h4] at h
          simp at h
        · rw [if_neg h4] at h
          cases hev : findEvent db eid with
          | none =>
            rw [hev] at h
            simp at h
          | some ev =>
            rw [hev] at h
            simp only [] at h
            by_cases h5 : rsvpClosed now (parseIso ev.rsvp_deadline) = true
            · rw [if_pos h5] at h
              simp at h
            · rw [if_neg h5] at h
              cases heu : (match toISOWithTZ ev.date ev.time with
                  | none => some (-86400 : Int)
                  | some s => (parseIso s).map (fun n => n - 86400)) with
              | none =>
                rw [heu] at h
                simp at h
              | some eu0 =>
                rw [heu] at h
                simp only [Prod.mk.injEq, RsvpResp.success.injEq] at h
                obtain ⟨⟨hrid, hst, had, _⟩, hdb⟩ := h
                refine ⟨by simpa using h2, by simpa using h3, by simpa using h4,
                  hrid.symm, hst.symm, had.symm, ?_⟩
                rw [← hdb]
                rfl

theorem postRsvpV2_success_inv (db : DB) (eid : Nat) (b : RsvpBody) (now : Int)
    (rid : Nat) (st : String) (ad eu : Int) (db' : DB)
    (h : postRsvpV2 db eid b now = (.success rid st ad eu, db')) :
    requiredMissing b = false ∧ statusValid (b.status.getD "") = true ∧
    headcountsInvalid (b.total_people.getD 0) (b.children.getD 0) = false ∧
    rid = db.nextRsvpId ∧ st = b.status.getD "" ∧
    ad = b.total_people.getD 0 - b.children.getD 0 ∧
    db' = replacedDB db eid b := by
  by_cases h1 : jsTrim b.honeypot ≠ ""
  · simp only [postRsvpV2] at h
    rw [if_pos h1] at h
    simp at h
  · simp only [postRsvpV2] at h
    rw [if_neg h1] at h
    by_cases h2 : requiredMissing b = true
    · rw [if_pos h2] at h
      simp at h
    · rw [if_neg h2] at h
      by_cases h3 : (!statusValid (b.status.getD "")) = true
      · rw [if_pos h3] at h
        simp at h
      · rw [if_neg h3] at h
        by_cases h4 : headcountsInvalid (b.total_people.getD 0) (b.children.getD 0) = true
        · rw [if_pos h4] at h
          simp at h
        · rw [if_neg h4] at h
          cases hev : findEvent db eid with
          | none =>
            rw [hev] at h
            simp at h
          | some ev =>
            rw [hev] at h
            simp only [] at h
            by_cases h5 : rsvpClosed now (parseIso ev.rsvp_deadline) = true
            · rw [if_pos h5] at h
              simp at h
            · rw [if_neg h5] at h
              cases heu : (parseIso (ev.date ++ "T" ++ ev.time)).map (fun n => n - 86400) with
              | none =>
                rw [heu] at h
                simp at h
              | some eu0 =>
                rw [heu] at h
                simp only [Prod.mk.injEq, RsvpResp.success.injEq] at h
                obtain ⟨⟨hrid, hst, had, _⟩, hdb⟩ := h
                refine ⟨by simpa using h2, by simpa using h3, by simpa using h4,
                  hrid.symm, hst.symm, had.symm, ?_⟩
                rw [← hdb]
                rfl

/-- §3's stored-headcount invariant as a predicate on the ledger. -/
def WfLedger (db : DB) : Prop :=
  ∀ r ∈ db.rsvps, 1 ≤ r.total_people ∧ 0 ≤ r.children ∧ r.children ≤ r.total_people

/-- C9: on every accepted submission (both variants), the returned `adults`
equals `total_people − children` and is non-negative (the validated
preconditions force `1 ≤ total_people` and `0 ≤ children ≤ total_people`),
and the replacement preserves the ledger invariant that no stored Response
has `children > total_people`. -/
theorem headcount_invariant (db : DB) (eid : Nat) (b : RsvpBody) (now : Int)
    (rid : Nat) (st : String) (ad eu : Int) (db' : DB) :
    (postRsvpV1 db eid b now = (.success rid st ad eu, db') →
      ad = b.total_people.getD 0 - b.children.getD 0 ∧ 0 ≤ ad ∧
      (WfLedger db → WfLedger db')) ∧
    (postRsvpV2 db eid b now = (.success rid st ad eu, db') →
      ad = b.total_people.getD 0 - b.children.getD 0 ∧ 0 ≤ ad ∧
      (WfLedger db → WfLedger db')) := by
  have key : ∀ db'' : DB, requiredMissing b = false →
      headcountsInvalid (b.total_people.getD 0) (b.children.getD 0) = false →
      db'' = replacedDB db eid b → WfLedger db → WfLedger db'' := by
    intro db'' hreq hvals hdb hwf r hr
    rw [hdb] at hr
    simp only [replacedDB, List.mem_append, List.mem_filter, List.mem_singleton] at hr
    rcases hr with ⟨hmem, _⟩ | hx
    · exact hwf r hmem
    · subst hx
      simp only [headcountsInvalid, Bool.or_eq_false_iff, decide_eq_false_iff_not] at hvals
      simp only [insertedRow]
      omega
  constructor
  · intro h
    obtain ⟨hreq, _, hvals, _, _, had, hdb⟩ := postRsvpV1_success_inv db eid b now rid st ad eu db' h
    refine ⟨had, ?_, key db' hreq hvals hdb⟩
    simp only [headcountsInvalid, Bool.or_eq_false_iff, decide_eq_false_iff_not] at hvals
    omega
  · intro h
    obtain ⟨hreq, _, hvals, _, _, had, hdb⟩ := postRsvpV2_success_inv db eid b now rid st ad eu db' h
    refine ⟨had, ?_, key db' hreq hvals hdb⟩
    simp only [headcountsInvalid, Bool.or_eq_false_iff, decide_eq_false_iff_not] at hvals
    omega

theorem headcount_invariant_witness :
    (1 : Int) = (2 : Int) - 1 ∧ (0 : Int) ≤ 1 ∧
    WfLedger { events := [evW], rsvps := [insertedW], nextRsvpId := 2 } :=
  let h := (headcount_invariant dbW 1 goodBody nowOpen 1 "going" 1 1746824400
      { events := [evW], rsvps := [insertedW], nextRsvpId := 2 }).1 (by decide)
  ⟨h.1, h.2.1, h.2.2 (by intro r hr; simp [dbW] at hr)⟩

theorem filter_after_replace (l : List Rsvp) (p : Rsvp → Bool) (x : Rsvp) (hx : p x = true) :
    (l.filter (fun r => !p r) ++ [x]).filter p = [x] := by
  rw [List.filter_append]
  have h1 : (l.filter (fun r => !p r)).filter p = [] := by
    induction l with
    | nil => rfl
    | cons a t ih =>
      by_cases hpa : p a = true
      · simp only [List.filter_cons, hpa, Bool.not_true, Bool.false_eq_true, if_false]
        exact ih
      · simp only [List.filter_cons, Bool.not_eq_true] at hpa ⊢
        rw [hpa]
        simp only [Bool.not_false, if_true, List.filter_cons, hpa, Bool.false_eq_true, if_false]
        exact ih
  rw [h1, List.filter_cons, hx]
  rfl

/-- C1: after any accepted submission (either variant) for the identity key
`(event_id, normalized name, phone digits)`, the ledger holds exactly one
live Response for that key — the freshly inserted row, carrying the status,
total_people and children of this submission — and every previously stored
row for that key has been deleted (the new ledger is the old one minus all
key-matching rows, plus the single new row, so nothing is merged). -/
theorem ledger_replacement (db : DB) (eid : Nat) (b : RsvpBody) (now : Int)
    (rid : Nat) (st : String) (ad eu : Int) (db' : DB) :
    (postRsvpV1 db eid b now = (.success rid st ad eu, db') →
      db'.rsvps = db.rsvps.filter (fun r => !keyMatches eid (normalizeName (b.name.getD ""))
          (onlyDigits (b.phone.getD "")) r) ++ [insertedRow db eid b] ∧
      db'.rsvps.filter (keyMatches eid (normalizeName (b.name.getD ""))
        (onlyDigits (b.phone.getD ""))) = [insertedRow db eid b] ∧
      (insertedRow db eid b).status = b.status.getD "" ∧
      (insertedRow db eid b).total_people = b.total_people.getD 0 ∧
      (insertedRow db eid b).children = b.children.getD 0 ∧
      (insertedRow db eid b).event_id = eid) ∧
    (postRsvpV2 db eid b now = (.success rid st ad eu, db') →
      db'.rsvps = db.rsvps.filter (fun r => !keyMatches eid (normalizeName (b.name.getD ""))
          (onlyDigits (b.phone.getD "")) r) ++ [insertedRow db eid b] ∧
      db'.rsvps.filter (keyMatches eid (normalizeName (b.name.getD ""))
        (onlyDigits (b.phone.getD ""))) = [insertedRow db eid b] ∧
      (insertedRow db eid b).status = b.status.getD "" ∧
      (insertedRow db eid b).total_people = b.total_people.getD 0 ∧
      (insertedRow db eid b).children = b.children.getD 0 ∧
      (insertedRow db eid b).event_id = eid) := by
  have hkey : keyMatches eid (normalizeName (b.name.getD "")) (onlyDigits (b.phone.getD ""))
      (insertedRow db eid b) = true := by
    simp [keyMatches, insertedRow]
  have main : ∀ db'' : DB, db'' = replacedDB db eid b →
      db''.rsvps = db.rsvps.filter (fun r => !keyMatches eid (normalizeName (b.name.getD ""))
          (onlyDigits (b.phone.getD "")) r) ++ [insertedRow db eid b] ∧
      db''.rsvps.filter (keyMatches eid (normalizeName (b.name.getD ""))
        (onlyDigits (b.phone.getD ""))) = [insertedRow db eid b] := by
    intro db'' hdb
    subst hdb
    refine ⟨rfl, ?_⟩
    exact filter_after_replace db.rsvps _ _ hkey
  constructor
  · intro h
    obtain ⟨_, _, _, _, _, _, hdb⟩ := postRsvpV1_success_inv db eid b now rid st ad eu db' h
    exact ⟨(main db' hdb).1, (main db' hdb).2, rfl, rfl, rfl, rfl⟩
  · intro h
    obtain ⟨_, _, _, _, _, _, hdb⟩ := postRsvpV2_success_inv db eid b now rid st ad eu db' h
    exact ⟨(main db' hdb).1, (main db' hdb).2, rfl, rfl, rfl, rfl⟩

theorem ledger_replacement_witness :
    ({ events := [evW], rsvps := [insertedW], nextRsvpId := 2 } : DB).rsvps =
      dbW.rsvps.filter (fun r => !keyMatches 1 (normalizeName "Ana")
        (onlyDigits "(11) 99999-0000") r) ++ [insertedRow dbW 1 goodBody] ∧
    ({ events := [evW], rsvps := [insertedW], nextRsvpId := 2 } : DB).rsvps.filter
      (keyMatches 1 (normalizeName "Ana") (onlyDigits "(11) 99999-0000")) =
      [insertedRow dbW 1 goodBody] :=
  let h := (ledger_replacement dbW 1 goodBody nowOpen 1 "going" 1 1746824400
      { events := [evW], rsvps := [insertedW], nextRsvpId := 2 }).1 (by decide)
  ⟨h.1, h.2.1⟩

theorem sqlSumInt_getD (l : List Int) : (sqlSumInt l).getD 0 = l.sum := by
  by_cases h : l.isEmpty
  · rw [List.isEmpty_iff] at h
    subst h
    rfl
  · simp [sqlSumInt, h]

/-- One more stored row (the INSERT's effect on the `rsvps` table). -/
def addRsvp (db : DB) (r : Rsvp) : DB :=
  { db with rsvps := db.rsvps ++ [r] }

/-- A `not_going` row for event 1. -/
def notGoingW : Rsvp :=
  { insertedW with status := "not_going", total_people := 5, children := 0 }

/-- C2: for an existing event, both summary variants report `adults` and
`children` as the sums of `total_people − children` and `children` over
exactly the stored Responses of the event whose status is in the counted set
(`{going}` when `include_maybe_in_counts` is false, `{going, maybe}` when
true); `not_going` is in neither counted set, and adding a `not_going`
Response leaves `adults`/`children` unchanged. -/
theorem aggregator_counts (db : DB) (id : Nat) (key : Option String) (ev : Event)
    (h : findEvent db id = some ev) :
    ((getSummaryV1 db id key).adultsOf = some
        ((((db.rsvps.filter (fun r => r.event_id == id)).filter
          (fun r => (countedStatuses ev.include_maybe_in_counts).contains r.status)).map
          (fun r => r.total_people - r.children)).sum) ∧
      (getSummaryV1 db id key).childrenOf = some
        ((((db.rsvps.filter (fun r => r.event_id == id)).filter
          (fun r => (countedStatuses ev.include_maybe_in_counts).contains r.status)).map
          (fun r => r.children)).sum) ∧
      (getSummaryV2 db id key).adultsOf = (getSummaryV1 db id key).adultsOf ∧
      (getSummaryV2 db id key).childrenOf = (getSummaryV1 db id key).childrenOf) ∧
    (countedStatuses true = ["going", "maybe"] ∧ countedStatuses false = ["going"] ∧
      ∀ im : Bool, (countedStatuses im).contains "not_going" = false) ∧
    (∀ r : Rsvp, r.status = "not_going" →
      (getSummaryV1 (addRsvp db r) id key).adultsOf = (getSummaryV1 db id key).adultsOf ∧
      (getSummaryV1 (addRsvp db r) id key).childrenOf =
        (getSummaryV1 db id key).childrenOf) := by
  have hnotc : ∀ im : Bool, (countedStatuses im).contains "not_going" = false := by
    intro im
    cases im <;> decide
  refine ⟨?_, ⟨rfl, rfl, hnotc⟩, ?_⟩
  · unfold getSummaryV1 getSummaryV2
    rw [h]
    simp only [SummaryResp.adultsOf, SummaryResp.childrenOf, sqlSumInt_getD, adultsColumn]
    simp
  · intro r hst
    have h2 : findEvent (addRsvp db r) id = some ev := h
    unfold getSummaryV1
    rw [h, h2]
    simp only [SummaryResp.adultsOf, SummaryResp.childrenOf, sqlSumInt_getD, addRsvp]
    rw [List.filter_append, List.filter_append]
    by_cases hid : (r.event_id == id) = true
    · rw [show List.filter (fun x => x.event_id == id) [r] = [r] from by simp [hid]]
      rw [show List.filter
          (fun x => (countedStatuses ev.include_maybe_in_counts).contains x.status) [r] = []
          from by
        simp only [List.filter_cons, List.filter_nil, hst]
        rw [hnotc ev.include_maybe_in_counts]
        simp]
      simp
    · rw [show List.filter (fun x => x.event_id == id) [r] = [] from by simp [hid]]
      simp

theorem aggregator_counts_witness :
    (getSummaryV1 dbW 1 none).adultsOf = some 0 ∧
    (countedStatuses false).contains "not_going" = false ∧
    (getSummaryV1 (addRsvp dbW notGoingW) 1 none).adultsOf =
      (getSummaryV1 dbW 1 none).adultsOf :=
  let h := aggregator_counts dbW 1 none evW (by decide)
  ⟨by rw [h.1.1]; decide, h.2.1.2.2 false, (h.2.2 notGoingW (by decide)).1⟩

/-- C5 counterexample: an existing event with zero Responses; `all`, `adults`
and `children` are 0, but `going`, `maybe` and `not_going` are SQL NULL
(`SUM` over zero rows, not `COALESCE`d), so they are null rather than the
claimed zero. -/
theorem summary_zero_null_counterexample :
    findEvent dbW 1 = some evW ∧ dbW.rsvps = [] ∧
    getSummaryV1 dbW 1 none = .totals 0 none none none 0 0 false ∧
    (getSummaryV1 dbW 1 none).goingOf = some none ∧
    ∀ g m n : Int, getSummaryV1 dbW 1 none ≠ .totals 0 (some g) (some m) (some n) 0 0 false := by
  refine ⟨by decide, by decide, by decide, by decide, fun g m n => ?_⟩
  rw [show getSummaryV1 dbW 1 none = .totals 0 none none none 0 0 false from by decide]
  simp

/-- C5 (amended): for an existing event with zero stored Responses, both
summary variants return `all = 0`, `adults = 0`, `children = 0`, but
`going`/`maybe`/`not_going` are SQL NULL (`none`), because those sums are not
`COALESCE`d; a non-existent event id yields the 404 not-found signal. -/
theorem summary_zero_counts (db : DB) (id : Nat) (key : Option String) (ev : Event) :
    (findEvent db id = some ev → db.rsvps.filter (fun r => r.event_id == id) = [] →
      getSummaryV1 db id key = .totals 0 none none none 0 0 ev.include_maybe_in_counts ∧
      getSummaryV2 db id key = .totals 0 none none none 0 0 ev.include_maybe_in_counts) ∧
    (findEvent db id = none →
      getSummaryV1 db id key = .err 404 "Evento não encontrado" ∧
      getSummaryV2 db id key = .err 404 "Evento não encontrado") := by
  constructor
  · intro h hrs
    unfold getSummaryV1 getSummaryV2
    rw [h, hrs]
    exact ⟨rfl, rfl⟩
  · intro h
    unfold getSummaryV1 getSummaryV2
    rw [h]
    exact ⟨rfl, rfl⟩

theorem summary_zero_counts_witness :
    getSummaryV1 dbW 1 none = .totals 0 none none none 0 0 false ∧
    getSummaryV1 { events := [], rsvps := [], nextRsvpId := 1 } 1 none =
      .err 404 "Evento não encontrado" :=
  ⟨((summary_zero_counts dbW 1 none evW).1 (by decide) (by decide)).1,
   ((summary_zero_counts { events := [], rsvps := [], nextRsvpId := 1 } 1 none evW).2
      (by decide)).1⟩

theorem postRsvpV1_cases (db : DB) (eid : Nat) (b : RsvpBody) (now : Int) :
    (postRsvpV1 db eid b now).2 = db ∨
    (postRsvpV1 db eid b now).1 = .err 500 "Erro ao salvar RSVP" ∨
    ∃ rid st ad eu, (postRsvpV1 db eid b now).1 = .success rid st ad eu := by
  simp only [postRsvpV1]
  repeat' split
  all_goals first
    | (left; rfl)
    | (right; left; rfl)
    | (right; right; exact ⟨_, _, _, _, rfl⟩)

theorem postRsvpV2_cases (db : DB) (eid : Nat) (b : RsvpBody) (now : Int) :
    (postRsvpV2 db eid b now).2 = db ∨
    (postRsvpV2 db eid b now).1 = .err 500 "Erro ao salvar RSVP" ∨
    ∃ rid st ad eu, (postRsvpV2 db eid b now).1 = .success rid st ad eu := by
  simp only [postRsvpV2]
  repeat' split
  all_goals first
    | (left; rfl)
    | (right; left; rfl)
    | (right; right; exact ⟨_, _, _, _, rfl⟩)

/-- The row `postRsvpV1 dbFeb30 2 goodBody nowOpen` inserts before failing. -/
def insertedFeb30 : Rsvp := { insertedW with event_id := 2 }

/-- C7 counterexample: for an event whose stored `date` passes the creation
regex but is not a real calendar date (`2025-02-30`), an otherwise fully
valid, gate-open submission passes all six checks, the DELETE+INSERT run, and
only then `edit_until.toISOString()` throws on the Invalid Date, so the
caller gets a 500 failure outcome while the ledger HAS changed — refuting
"on every failing outcome nothing is persisted". -/
theorem first_failure_persistence_counterexample :
    postRsvpV1 dbFeb30 2 goodBody nowOpen =
      (.err 500 "Erro ao salvar RSVP",
        { events := [evFeb30], rsvps := [insertedFeb30], nextRsvpId := 2 }) ∧
    ({ events := [evFeb30], rsvps := [insertedFeb30], nextRsvpId := 2 } : DB) ≠ dbFeb30 :=
  ⟨by decide, by decide⟩

/-- C7 (amended): the six checks run in the specified order with the first
failure reported (honeypot trap; required/numeric fields; status enumeration;
headcount bounds; event existence; Deadline Gate), and each of those checks
precedes any write, so on every such failing outcome the ledger is unchanged.
One failing outcome does persist: when the stored event date/time cannot be
re-parsed for the informational `edit_until`, the handler fails with a 500
internal error after the replacement has already been applied — any outcome
that changes the ledger is either a success or that post-insert 500. -/
theorem first_failure_ordering (db : DB) (eid : Nat) (b : RsvpBody) (now : Int) :
    ((jsTrim b.honeypot ≠ "" →
      postRsvpV1 db eid b now = (.okTrue, db) ∧ postRsvpV2 db eid b now = (.okTrue, db)) ∧
    (jsTrim b.honeypot = "" → requiredMissing b = true →
      postRsvpV1 db eid b now =
        (.err 400 "Campos obrigatórios: name, phone, status, total_people, children", db) ∧
      postRsvpV2 db eid b now =
        (.err 400 "Campos obrigatórios: name, phone, status, total_people, children", db)) ∧
    (jsTrim b.honeypot = "" → requiredMissing b = false →
      statusValid (b.status.getD "") = false →
      postRsvpV1 db eid b now = (.err 400 "status inválido", db) ∧
      postRsvpV2 db eid b now = (.err 400 "status inválido", db)) ∧
    (jsTrim b.honeypot = "" → requiredMissing b = false →
      statusValid (b.status.getD "") = true →
      headcountsInvalid (b.total_people.getD 0) (b.children.getD 0) = true →
      postRsvpV1 db eid b now = (.err 400 "Valores inválidos de pessoas/crianças", db) ∧
      postRsvpV2 db eid b now = (.err 400 "Valores inválidos de pessoas/crianças", db)) ∧
    (jsTrim b.honeypot = "" → requiredMissing b = false →
      statusValid (b.status.getD "") = true →
      headcountsInvalid (b.total_people.getD 0) (b.children.getD 0) = false →
      findEvent db eid = none →
      postRsvpV1 db eid b now = (.err 404 "Evento não encontrado", db) ∧
      postRsvpV2 db eid b now = (.err 404 "Evento não encontrado", db)) ∧
    (∀ ev : Event, jsTrim b.honeypot = "" → requiredMissing b = false →
      statusValid (b.status.getD "") = true →
      headcountsInvalid (b.total_people.getD 0) (b.children.getD 0) = false →
      findEvent db eid = some ev → rsvpClosed now (parseIso ev.rsvp_deadline) = true →
      postRsvpV1 db eid b now = (.err 403 "RSVP encerrado para este evento", db) ∧
      postRsvpV2 db eid b now = (.err 403 "RSVP encerrado para este evento", db))) ∧
    (∀ (resp : RsvpResp) (db' : DB),
      (postRsvpV1 db eid b now = (resp, db') ∨ postRsvpV2 db eid b now = (resp, db')) →
      db' ≠ db →
      resp = .err 500 "Erro ao salvar RSVP" ∨ ∃ rid st ad eu, resp = .success rid st ad eu) := by
  constructor
  · refine ⟨?_, ?_, ?_, ?_, ?_, ?_⟩
    · intro h1
      constructor
      · simp only [postRsvpV1]
        rw [if_pos h1]
      · simp only [postRsvpV2]
        rw [if_pos h1]
    · intro h1 h2
      constructor
      · simp only [postRsvpV1]
        rw [if_neg (by simp [h1]), if_pos h2]
      · simp only [postRsvpV2]
        rw [if_neg (by simp [h1]), if_pos h2]
    · intro h1 h2 h3
      constructor
      · simp only [postRsvpV1]
        rw [if_neg (by simp [h1]), if_neg (by simp [h2]), if_pos (by simp [h3])]
      · simp only [postRsvpV2]
        rw [if_neg (by simp [h1]), if_neg (by simp [h2]), if_pos (by simp [h3])]
    · intro h1 h2 h3 h4
      constructor
      · simp only [postRsvpV1]
        rw [if_neg (by simp [h1]), if_neg (by simp [h2]), if_neg (by simp [h3]), if_pos h4]
      · simp only [postRsvpV2]
        rw [if_neg (by simp [h1]), if_neg (by simp [h2]), if_neg (by simp [h3]), if_pos h4]
    · intro h1 h2 h3 h4 h5
      constructor
      · simp only [postRsvpV1]
        rw [if_neg (by simp [h1]), if_neg (by simp [h2]), if_neg (by simp [h3]),
          if_neg (by simp [h4]), h5]
      · simp only [postRsvpV2]
        rw [if_neg (by simp [h1]), if_neg (by simp [h2]), if_neg (by simp [h3]),
          if_neg (by simp [h4]), h5]
    · intro ev h1 h2 h3 h4 h5 h6
      constructor
      · simp only [postRsvpV1]
        rw [if_neg (by simp [h1]), if_neg (by simp [h2]), if_neg (by simp [h3]),
          if_neg (by simp [h4]), h5]
        simp only []
        rw [if_pos h6]
      · simp only [postRsvpV2]
        rw [if_neg (by simp [h1]), if_neg (by simp [h2]), if_neg (by simp [h3]),
          if_neg (by simp [h4]), h5]
        simp only []
        rw [if_pos h6]
  · intro resp db' hor hne
    rcases hor with h | h
    · rcases postRsvpV1_cases db eid b now with hc | hc | ⟨rid, st, ad, eu, hc⟩
      · rw [h] at hc
        exact absurd hc hne
      · rw [h] at hc
        exact Or.inl hc
      · rw [h] at hc
        exact Or.inr ⟨rid, st, ad, eu, hc⟩
    · rcases postRsvpV2_cases db eid b now with hc | hc | ⟨rid, st, ad, eu, hc⟩
      · rw [h] at hc
        exact absurd hc hne
      · rw [h] at hc
        exact Or.inl hc
      · rw [h] at hc
        exact Or.inr ⟨rid, st, ad, eu, hc⟩

theorem first_failure_ordering_witness :
    (postRsvpV1 dbW 1 spamBody nowOpen = (.okTrue, dbW) ∧
      postRsvpV2 dbW 1 spamBody nowOpen = (.okTrue, dbW)) ∧
    (postRsvpV1 dbW 5 goodBody nowOpen = (.err 404 "Evento não encontrado", dbW) ∧
      postRsvpV2 dbW 5 goodBody nowOpen = (.err 404 "Evento não encontrado", dbW)) :=
  ⟨(first_failure_ordering dbW 1 spamBody nowOpen).1.1 (by decide),
   (first_failure_ordering dbW 5 goodBody nowOpen).1.2.2.2.2.1 (by decide) (by decide)
     (by decide) (by decide) (by decide)⟩

/-- Fixture: a creation request carrying an unparseable legacy deadline. -/
def bGarbage : EventBody :=
  { title := some "Festa", host_name := some "Ana", date := some "2025-05-10",
    time := some "18:00", location := some "Sala 1", rsvp_deadline_date := none,
    rsvp_deadline_time := none, rsvp_deadline := some "soon!" }

/-- C8 counterexample: with no split fields and the legacy field set to the
unparseable string "soon!", event creation SUCCEEDS and stores "soon!"
verbatim — it is not rejected, although none of (a)/(b)/(c) yielded a
parseable deadline; the gate then never closes for this event (an Invalid
Date compares false), i.e. the claimed "rejected rather than silently
defaulting" fails on the code. -/
theorem deadline_resolution_counterexample :
    postEventsV1 bGarbage = .created "soon!" ∧
    parseIso "soon!" = none ∧
    (∀ now : Int, rsvpClosed now (parseIso "soon!") = false) :=
  ⟨by decide, by decide, fun _ => rfl⟩

/-- C8 (amended): in the first variant the deadline is resolved once at
creation by priority (a) both split fields present and well-formed, parsed at
the fixed -03:00 offset; (a') both present but regex-malformed: the
24-hours-before-start fallback, skipping the legacy field; (b) split not both
present and legacy provided: the legacy string stored verbatim with no parse
validation (creation succeeds even when it is unparseable); (c) otherwise the
fallback, whose stored string parses back to exactly the event start instant
minus 24 hours (for in-range whole-minute starts).  Creation is rejected only
for missing required fields or a regex-malformed event date/time, never for
an unparseable deadline.  The second variant has no split fields and no
fallback: it requires the legacy field and stores it verbatim. -/
theorem deadline_resolution (b : EventBody) :
    (eventRequiredMissingV1 b = true →
      postEventsV1 b = .err 400 "Campos obrigatórios: title, host_name, date, time, location") ∧
    (eventRequiredMissingV1 b = false →
      toISOWithTZ (b.date.getD "") (b.time.getD "") = none →
      postEventsV1 b =
        .err 400
          "Formato inválido de data/horário do evento (use data \"YYYY-MM-DD\" e hora \"HH:mm\")") ∧
    (∀ eventISO : String, eventRequiredMissingV1 b = false →
      toISOWithTZ (b.date.getD "") (b.time.getD "") = some eventISO →
      (∀ s : String, bothSplit b = true →
        toISOWithTZ (b.rsvp_deadline_date.getD "") (b.rsvp_deadline_time.getD "") = some s →
        postEventsV1 b = .created s) ∧
      (bothSplit b = true →
        toISOWithTZ (b.rsvp_deadline_date.getD "") (b.rsvp_deadline_time.getD "") = none →
        postEventsV1 b = .created (fallbackDeadline eventISO)) ∧
      (bothSplit b = false → strFalsy b.rsvp_deadline = false →
        postEventsV1 b = .created (b.rsvp_deadline.getD "")) ∧
      (bothSplit b = false → strFalsy b.rsvp_deadline = true →
        postEventsV1 b = .created (fallbackDeadline eventISO))) ∧
    (∀ (eventISO : String) (start : Int), parseIso eventISO = some start →
      start % 60 = 0 → -30610040400 ≤ start → start ≤ 253402214400 →
      parseIso (fallbackDeadline eventISO) = some (start - 86400)) ∧
    (eventRequiredMissingV2 b = true →
      postEventsV2 b =
        .err 400 "Campos obrigatórios: title, host_name, date, time, location, rsvp_deadline") ∧
    (eventRequiredMissingV2 b = false → postEventsV2 b = .created (b.rsvp_deadline.getD "")) := by
  refine ⟨?_, ?_, ?_, ?_, ?_, ?_⟩
  · intro h1
    simp only [postEventsV1]
    rw [if_pos h1]
  · intro h1 h2
    simp only [postEventsV1]
    rw [if_neg (by simp [h1]), h2]
  · intro eventISO h1 h2
    refine ⟨?_, ?_, ?_, ?_⟩
    · intro s hb hs
      simp only [postEventsV1]
      rw [if_neg (by simp [h1]), h2]
      simp only [if_pos hb, hs]
    · intro hb hs
      simp only [postEventsV1]
      rw [if_neg (by simp [h1]), h2]
      simp only [if_pos hb, hs]
    · intro hb hl
      simp only [postEventsV1]
      rw [if_neg (by simp [h1]), h2]
      rw [if_neg (by simp [hb]), if_pos (by simp [hl])]
      cases hrd : b.rsvp_deadline with
      | none =>
        rw [hrd] at hl
        simp [strFalsy] at hl
      | some s =>
        simp
    · intro hb hl
      simp only [postEventsV1]
      rw [if_neg (by simp [h1]), h2]
      rw [if_neg (by simp [hb]), if_neg (by simp [hl])]
  · intro eventISO start hp h60 hlo hhi
    unfold fallbackDeadline
    rw [hp]
    exact parseIso_isoFromDate (start - 86400) (by omega) (by omega) (by omega)
  · intro h1
    simp only [postEventsV2]
    rw [if_pos h1]
  · intro h1
    simp only [postEventsV2]
    rw [if_neg (by simp [h1])]

theorem deadline_resolution_witness :
    postEventsV1 { bGarbage with rsvp_deadline := none } =
      .created (fallbackDeadline "2025-05-10T18:00:00-03:00") ∧
    parseIso (fallbackDeadline "2025-05-10T18:00:00-03:00") =
      some (1746910800 - 86400) ∧
    postEventsV1 bGarbage = .created "soon!" ∧
    postEventsV2 bGarbage = .created "soon!" :=
  let h := deadline_resolution bGarbage
  let h' := deadline_resolution { bGarbage with rsvp_deadline := none }
  ⟨((h'.2.2.1 "2025-05-10T18:00:00-03:00" (by decide) (by decide)).2.2.2 (by decide)
      (by decide)),
   h.2.2.2.1 "2025-05-10T18:00:00-03:00" 1746910800 (by decide) (by decide) (by decide)
     (by decide),
   (h.2.2.1 "2025-05-10T18:00:00-03:00" (by decide) (by decide)).2.2.1 (by decide) (by decide),
   h.2.2.2.2.2 (by decide)⟩
